import Mathlib

/-!
Verification development for the presto-exporter sources.

The two Go source files are shallowly embedded here:

* `src/presto/collector.go` — the Stats Collector: per-cluster scraping of the
  coordinator HTTP API (two dialects) and emission of Prometheus gauge metrics.
* `src/aws/cluster_provider.go` — the Cluster Registry: EMR cluster discovery,
  master-address resolution and the 30-minute discovery cache.

HTTP and the AWS EMR API are modelled as oracles (pure functions from requests
to responses); evaluation is trace-passing so that the set of issued requests
is part of each function's result.  Machine floats (Go `float64`) are modelled
by `ℚ`: every numeric value the claims mention is exactly representable.
Go's `nil`-pointer dereference is modelled by an explicit `panicked` outcome.
-/

namespace PrestoExporter

deriving instance DecidableEq for Except

/-- The JSON delimiter characters, named for use in the decoder below. -/
def lbrace : Char := Char.ofNat 123

def rbrace : Char := Char.ofNat 125

def dquote : Char := Char.ofNat 34

/-- Outcome of running a piece of Go code: a normal value, a returned `error`,
or a runtime panic (nil-pointer dereference). -/
inductive GoResult (α : Type) where
  | ok (a : α)
  | err (e : String)
  | panicked (msg : String)
deriving Repr, DecidableEq

/-- Go's nil-pointer dereference panic message. -/
def nilDeref : String :=
  "runtime error: invalid memory address or nil pointer dereference"

/-- ASCII lowercase of a string (models `strings.ToLower` and the
case-insensitivity of canonical header / JSON field matching), defined
structurally on the character list so it evaluates in the kernel. -/
def strToLower (s : String) : String :=
  String.mk (s.data.map Char.toLower)

namespace presto

/-- Engine-API variant of a coordinator.

Modelled from the spec: the `trino`/`presto` package defining the
`Distribution` type and its constants is not under `src/`; the spec's data
model says the variant is "one of two enumerated coordinator API dialects
(call them `Direct` and `Authenticated`)".  `DistSql` is the Authenticated
(PrestoSQL-style) dialect, `DistDb` the Direct (PrestoDB-style) one. -/
inductive Distribution where
  | DistSql
  | DistDb
deriving Repr, DecidableEq

/-- One discovered cluster, as consumed by the collector
(`ClusterInfo` in the source; the `Host` field is the coordinator base URL). -/
structure ClusterInfo where
  Host : String
  Distribution : Distribution
deriving Repr, DecidableEq

/-- HTTP method used by the collector (only GET and POST occur). -/
inductive Method where
  | GET
  | POST
deriving Repr, DecidableEq

/-- An HTTP request as issued by the collector's `http.Client`. -/
structure HttpRequest where
  method : Method
  url : String
  headers : List (String × String)
  body : String
deriving Repr, DecidableEq

/-- An HTTP response.  The body is the byte string `ioutil.ReadAll` yields. -/
structure HttpResponse where
  statusCode : Nat
  headers : List (String × String)
  body : String
deriving Repr, DecidableEq

/-- `http.Header.Get`: first header whose canonical (here: case-insensitive)
name matches, or `""` when absent. -/
def headerGet (headers : List (String × String)) (key : String) : String :=
  match headers.find? (fun p => strToLower p.1 == strToLower key) with
  | some p => p.2
  | none => ""

/-- The collector's HTTP client, as an oracle from requests to responses.
`Except.error` is a transport-level error (`err != nil` in Go).  The source
client also fixes a 10-second timeout and disables redirect following
(`http.ErrUseLastResponse`); both are absorbed into the oracle. -/
structure HttpClient where
  respond : HttpRequest → Except String HttpResponse

/-- The statistics snapshot decoded from a coordinator body
(`Response` in the source; nine `float64` fields with JSON tags).
Go zero values are the field defaults. -/
structure Response where
  RunningQueries : ℚ := 0
  BlockedQueries : ℚ := 0
  QueuedQueries : ℚ := 0
  ActiveWorkers : ℚ := 0
  RunningDrivers : ℚ := 0
  ReservedMemory : ℚ := 0
  TotalInputRows : ℚ := 0
  TotalInputBytes : ℚ := 0
  TotalCpuTimeSecs : ℚ := 0
deriving Repr, DecidableEq

/-! ### A model of `encoding/json.Unmarshal` for the exporter's inputs

The coordinator bodies this exporter consumes are flat JSON objects whose
values are numbers.  The decoder below parses exactly that shape; any other
input is a decode error, matching `json.Unmarshal`'s error on malformed
input.  Field lookup is case-insensitive with the last duplicate winning and
absent keys left at the Go zero value, as `encoding/json` does for structs. -/

/-- Skip JSON whitespace. -/
def skipWs : List Char → List Char
  | c :: rest =>
    if c = ' ' ∨ c = '\t' ∨ c = '\n' ∨ c = '\r' then skipWs rest else c :: rest
  | [] => []

/-- Read characters up to a closing double quote. -/
def takeUntilQuote : List Char → Option (List Char × List Char)
  | [] => none
  | c :: rest =>
    if c = dquote then some ([], rest)
    else
      match takeUntilQuote rest with
      | some (s, r) => some (c :: s, r)
      | none => none

/-- Decimal digits to a natural number. -/
def digitsToNat (ds : List Char) : Nat :=
  ds.foldl (fun acc c => 10 * acc + (c.toNat - 48)) 0

/-- Parse a JSON number (integer or decimal fraction) as a rational.  The
value is built with `mkRat` on the scaled-decimal mantissa, which the kernel
can evaluate, rather than with rational `+`/`/`. -/
def parseNumber (s : List Char) : Option (ℚ × List Char) :=
  let neg : Bool × List Char :=
    match s with
    | '-' :: r => (true, r)
    | _ => (false, s)
  let ds := neg.2.takeWhile Char.isDigit
  let s₂ := neg.2.dropWhile Char.isDigit
  if ds.isEmpty then none
  else
    match s₂ with
    | '.' :: r =>
      let fs := r.takeWhile Char.isDigit
      let r₂ := r.dropWhile Char.isDigit
      if fs.isEmpty then none
      else
        let m : Int := (digitsToNat (ds ++ fs) : Int)
        some (mkRat (if neg.1 then -m else m) (10 ^ fs.length), r₂)
    | _ =>
      let m : Int := (digitsToNat ds : Int)
      some (mkRat (if neg.1 then -m else m) 1, s₂)

/-- Parse the members of a JSON object after the opening brace, given fuel. -/
def parseMembers (fuel : Nat) (s : List Char) :
    Option (List (String × ℚ) × List Char) :=
  match fuel with
  | 0 => none
  | fuel + 1 =>
    match skipWs s with
    | c :: r =>
      if c = dquote then
        match takeUntilQuote r with
        | none => none
        | some (key, r₁) =>
          match skipWs r₁ with
          | ':' :: r₂ =>
            match parseNumber (skipWs r₂) with
            | none => none
            | some (v, r₃) =>
              match skipWs r₃ with
              | ',' :: r₄ =>
                match parseMembers fuel r₄ with
                | some (ps, r₅) => some ((String.mk key, v) :: ps, r₅)
                | none => none
              | c₂ :: r₄ =>
                if c₂ = rbrace then some ([(String.mk key, v)], r₄) else none
              | [] => none
          | _ => none
      else none
    | [] => none

/-- Parse a complete flat JSON object `{"k": n, ...}` with numeric values. -/
def parseFlatJsonObject (body : String) : Option (List (String × ℚ)) :=
  match skipWs body.data with
  | c :: r =>
    if c = lbrace then
      match skipWs r with
      | c₁ :: r₁ =>
        if c₁ = rbrace then
          if (skipWs r₁).isEmpty then some [] else none
        else
          match parseMembers (r.length + 1) (c₁ :: r₁) with
          | some (ps, rest) => if (skipWs rest).isEmpty then some ps else none
          | none => none
      | [] => none
    else none
  | [] => none

/-- Struct-field lookup: case-insensitive key match, last duplicate wins,
absent fields keep the zero value (looked up via the default argument). -/
def fieldValue (ps : List (String × ℚ)) (key : String) : ℚ :=
  match ps.reverse.find? (fun p => strToLower p.1 == strToLower key) with
  | some p => p.2
  | none => 0

/-- `json.Unmarshal(body, &response)` for the `Response` struct. -/
def jsonUnmarshalResponse (body : String) : Except String Response :=
  match parseFlatJsonObject body with
  | none => Except.error "invalid JSON body"
  | some ps =>
    Except.ok
      { RunningQueries := fieldValue ps "runningQueries"
        BlockedQueries := fieldValue ps "blockedQueries"
        QueuedQueries := fieldValue ps "queuedQueries"
        ActiveWorkers := fieldValue ps "activeWorkers"
        RunningDrivers := fieldValue ps "runningDrivers"
        ReservedMemory := fieldValue ps "reservedMemory"
        TotalInputRows := fieldValue ps "totalInputRows"
        TotalInputBytes := fieldValue ps "totalInputBytes"
        TotalCpuTimeSecs := fieldValue ps "totalCpuTimeSecs" }

/-! ### The scrape functions and `Collect` -/

/-- The GET issued by `statsFromPrestoDB` (`client.Get` sets no headers). -/
def prestoDbRequest (host : String) : HttpRequest :=
  { method := Method.GET, url := host ++ "/v1/cluster", headers := [], body := "" }

/-- `statsFromPrestoDB`: one GET to `<host>/v1/cluster`.  The source's non-200
branch is `return Response{}, err` where `err` is provably `nil` at that
point, so a non-200 status yields `(Response{}, nil)` — no error. -/
def statsFromPrestoDB (client : HttpClient) (cluster : ClusterInfo) :
    List HttpRequest × Except String Response :=
  let req := prestoDbRequest cluster.Host
  match client.respond req with
  | Except.error e => ([req], Except.error e)
  | Except.ok resp =>
    if resp.statusCode ≠ 200 then
      ([req], Except.ok {})
    else
      ([req], jsonUnmarshalResponse resp.body)

/-- The login POST issued by `login` (form-encoded fixed credentials). -/
def loginRequest (host : String) : HttpRequest :=
  { method := Method.POST
    url := host ++ "/ui/login"
    headers := [("Content-Type", "application/x-www-form-urlencoded")]
    body := "username=exporter&password=&redirectPath=" }

/-- `login`: POST to `<host>/ui/login`; the session cookie is the `Set-Cookie`
header of the response, and its absence (`""` from `Header.Get`) is the
`MissingSessionCookieError`. -/
def login (client : HttpClient) (cluster : ClusterInfo) :
    List HttpRequest × Except String String :=
  let req := loginRequest cluster.Host
  match client.respond req with
  | Except.error e => ([req], Except.error e)
  | Except.ok resp =>
    let cookie := headerGet resp.headers "Set-Cookie"
    if cookie = "" then
      ([req], Except.error "no Set-Cookie header present in response")
    else
      ([req], Except.ok cookie)

/-- The stats GET issued by `statsFromPrestoSQL`, carrying the cookie. -/
def statsRequest (host cookie : String) : HttpRequest :=
  { method := Method.GET
    url := host ++ "/ui/api/stats"
    headers := [("Cookie", cookie)]
    body := "" }

/-- `statsFromPrestoSQL`: login handshake, then a GET to `<host>/ui/api/stats`
with the session cookie.  Note that the source checks no status code on the
stats response: the body is unmarshalled whatever the status was. -/
def statsFromPrestoSQL (client : HttpClient) (cluster : ClusterInfo) :
    List HttpRequest × Except String Response :=
  match login client cluster with
  | (tr, Except.error e) => (tr, Except.error e)
  | (tr, Except.ok cookie) =>
    let req := statsRequest cluster.Host cookie
    match client.respond req with
    | Except.error e => (tr ++ [req], Except.error e)
    | Except.ok resp => (tr ++ [req], jsonUnmarshalResponse resp.body)

/-- `statisticsFromCluster`: dispatch on the engine-API variant.  With the
spec-modelled two-variant `Distribution`, the source's `default` branch
(`unsupported distribution`) is unreachable. -/
def statisticsFromCluster (client : HttpClient) (cluster : ClusterInfo) :
    List HttpRequest × Except String Response :=
  match cluster.Distribution with
  | Distribution.DistSql => statsFromPrestoSQL client cluster
  | Distribution.DistDb => statsFromPrestoDB client cluster

/-- `var namespace = "presto_cluster"` (renamed: `namespace` is a keyword). -/
def metricNamespace : String := "presto_cluster"

/-- `prometheus.BuildFQName`: joins the non-empty parts with `_`. -/
def buildFQName (ns subsystem name : String) : String :=
  if name = "" then ""
  else if ns ≠ "" ∧ subsystem ≠ "" then ns ++ "_" ++ subsystem ++ "_" ++ name
  else if ns ≠ "" then ns ++ "_" ++ name
  else if subsystem ≠ "" then subsystem ++ "_" ++ name
  else name

/-- One emitted gauge metric (`prometheus.MustNewConstMetric` with
`GaugeValue`): fully-qualified descriptor name, value, label values. -/
structure Metric where
  descName : String
  value : ℚ
  labelValues : List String
deriving Repr, DecidableEq

def runningQueries : String := buildFQName metricNamespace "" "running_queries"

def blockedQueries : String := buildFQName metricNamespace "" "blocked_queries"

def queuedQueries : String := buildFQName metricNamespace "" "queued_queries"

def activeWorkers : String := buildFQName metricNamespace "" "active_workers"

def runningDrivers : String := buildFQName metricNamespace "" "running_drivers"

def reservedMemory : String := buildFQName metricNamespace "" "reserved_memory"

def totalInputRows : String := buildFQName metricNamespace "" "total_input_rows"

def totalInputBytes : String := buildFQName metricNamespace "" "total_input_bytes"

def totalCpuTimeSecs : String := buildFQName metricNamespace "" "total_cpu_time_secs"

def up : String := buildFQName metricNamespace "" "up"

/-- The metrics emitted for one successfully scraped cluster, in source
emission order: the nine numeric gauges, then `up = 1`. -/
def successMetrics (name : String) (response : Response) : List Metric :=
  [ { descName := runningQueries, value := response.RunningQueries, labelValues := [name] }
  , { descName := blockedQueries, value := response.BlockedQueries, labelValues := [name] }
  , { descName := queuedQueries, value := response.QueuedQueries, labelValues := [name] }
  , { descName := activeWorkers, value := response.ActiveWorkers, labelValues := [name] }
  , { descName := runningDrivers, value := response.RunningDrivers, labelValues := [name] }
  , { descName := reservedMemory, value := response.ReservedMemory, labelValues := [name] }
  , { descName := totalInputRows, value := response.TotalInputRows, labelValues := [name] }
  , { descName := totalInputBytes, value := response.TotalInputBytes, labelValues := [name] }
  , { descName := totalCpuTimeSecs, value := response.TotalCpuTimeSecs, labelValues := [name] }
  , { descName := up, value := 1, labelValues := [name] } ]

/-- The single metric emitted for a failed per-cluster scrape: `up = 0`. -/
def downMetric (name : String) : Metric :=
  { descName := up, value := 0, labelValues := [name] }

/-- The per-cluster loop body of `Collect`, over the snapshot's entries.
Returns (issued HTTP requests, logged error strings, emitted metrics). -/
def collectClusters (client : HttpClient) :
    List (String × ClusterInfo) → List HttpRequest × List String × List Metric
  | [] => ([], [], [])
  | (name, cluster) :: rest =>
    let scraped := statisticsFromCluster client cluster
    let tail := collectClusters client rest
    match scraped.2 with
    | Except.error e =>
      (scraped.1 ++ tail.1, e :: tail.2.1, downMetric name :: tail.2.2)
    | Except.ok response =>
      (scraped.1 ++ tail.1, tail.2.1, successMetrics name response ++ tail.2.2)

/-- `Collect`: ask the cluster provider, abort the cycle (logging the cause)
when `Provide` failed, otherwise run the per-cluster loop.  The Go map's
iteration order is unspecified; the snapshot is passed as an entry list. -/
def Collect (client : HttpClient)
    (provided : Except String (List (String × ClusterInfo))) :
    List HttpRequest × List String × List Metric :=
  match provided with
  | Except.error e => ([], [e], [])
  | Except.ok clusters => collectClusters client clusters

end presto

namespace aws

/-- An application entry of a cluster descriptor (`emr.Application`).  The
source dereferences `*application.Name`; the name is modelled as the
pointed-to string. -/
structure Application where
  Name : String
deriving Repr, DecidableEq

/-- The cluster descriptor (`emr.Cluster`).  `Id`, `Name` and
`InstanceCollectionType` are `*string` in the SDK and dereferenced by the
source; they are modelled as the pointed-to strings. -/
structure EmrCluster where
  Id : String
  Name : String
  InstanceCollectionType : String
  Applications : List Application
deriving Repr, DecidableEq

/-- `emr.DescribeClusterOutput`.  The SDK allocates the output struct before
sending the request, so on a failed call the output exists but its `Cluster`
pointer is nil — hence the `Option`. -/
structure DescribeClusterOutput where
  Cluster : Option EmrCluster
deriving Repr, DecidableEq

/-- A `ListClusters` result entry (`emr.ClusterSummary`); only `Id` is read. -/
structure ClusterSummary where
  Id : String
deriving Repr, DecidableEq

/-- A `ListInstances` result entry (`emr.Instance`); the source reads `Id`
(passed on as an instance-group id) and dereferences `*PrivateIpAddress`. -/
structure Instance where
  Id : String
  PrivateIpAddress : String
deriving Repr, DecidableEq

/-- `emr.ListInstancesInput`, restricted to the fields the source sets. -/
structure ListInstancesInput where
  ClusterId : String
  InstanceFleetType : Option String := none
  InstanceGroupTypes : List String := []
  InstanceGroupId : Option String := none
deriving Repr, DecidableEq

/-- `emr.ListInstancesOutput`. -/
structure ListInstancesOutput where
  Instances : List Instance
deriving Repr, DecidableEq

def InstanceCollectionTypeInstanceGroup : String := "INSTANCE_GROUP"

def InstanceCollectionTypeInstanceFleet : String := "INSTANCE_FLEET"

def InstanceFleetTypeMaster : String := "MASTER"

def InstanceGroupTypeMaster : String := "MASTER"

/-- The EMR API as an oracle.  `ListClustersPagesWithContext` (all pages, the
callback always returns `true`) is modelled as a single `listClusters` call
yielding every summary or the transport error. -/
structure EmrApi where
  listClusters : Except String (List ClusterSummary)
  describeCluster : String → Except String DescribeClusterOutput
  listInstances : ListInstancesInput → Except String ListInstancesOutput

/-- One cloud-API call, for the request traces. -/
inductive ApiCall where
  | listClustersCall
  | describeClusterCall (clusterId : String)
  | listInstancesCall (input : ListInstancesInput)
deriving Repr, DecidableEq

/-- `isTrinoInstalled`: does the descriptor's application list name the
target engine (case-insensitively `trino` or `trinodb`)?  Reading
`descr.Cluster.Applications` through a nil `Cluster` pointer — the state a
descriptor is left in when its `DescribeCluster` call failed — is a Go
runtime panic. -/
def isTrinoInstalled (descr : DescribeClusterOutput) : GoResult Bool :=
  match descr.Cluster with
  | none => GoResult.panicked nilDeref
  | some cl =>
    GoResult.ok (cl.Applications.any fun application =>
      strToLower application.Name == "trino" || strToLower application.Name == "trinodb")

/-- The loop body of `listTargetClusters` over the listed summaries: describe
each cluster — the source discards the error (`descr, _ :=`) — and keep the
descriptors with the target engine installed. -/
def filterTargetClusters (api : EmrApi) :
    List ClusterSummary → List ApiCall × GoResult (List DescribeClusterOutput)
  | [] => ([], GoResult.ok [])
  | summary :: rest =>
    let call := ApiCall.describeClusterCall summary.Id
    let descr : DescribeClusterOutput :=
      match api.describeCluster summary.Id with
      | Except.ok d => d
      | Except.error _ => { Cluster := none }
    match isTrinoInstalled descr with
    | GoResult.panicked msg => ([call], GoResult.panicked msg)
    | GoResult.err e => ([call], GoResult.err e)
    | GoResult.ok installed =>
      let tail := filterTargetClusters api rest
      (call :: tail.1,
        match tail.2 with
        | GoResult.ok ds => GoResult.ok (if installed then descr :: ds else ds)
        | other => other)

/-- `listTargetClusters`: list `WAITING` clusters, describe and filter. -/
def listTargetClusters (api : EmrApi) :
    List ApiCall × GoResult (List DescribeClusterOutput) :=
  match api.listClusters with
  | Except.error e => ([ApiCall.listClustersCall], GoResult.err e)
  | Except.ok summaries =>
    let filtered := filterTargetClusters api summaries
    (ApiCall.listClustersCall :: filtered.1, filtered.2)

/-- The `NoMasterFoundError` of the spec:
`fmt.Errorf("no master instance found for cluster %s", ...)`. -/
def noMasterFoundError (clusterId : String) : String :=
  "no master instance found for cluster " ++ clusterId

/-- `getMasterInstanceForFleet`: list the master fleet's instances; zero
instances is the no-master error, otherwise the first instance's private
address is taken. -/
def getMasterInstanceForFleet (api : EmrApi) (cluster : DescribeClusterOutput) :
    List ApiCall × GoResult String :=
  match cluster.Cluster with
  | none => ([], GoResult.panicked nilDeref)
  | some cl =>
    let input : ListInstancesInput :=
      { ClusterId := cl.Id, InstanceFleetType := some InstanceFleetTypeMaster }
    let call := ApiCall.listInstancesCall input
    match api.listInstances input with
    | Except.error e => ([call], GoResult.err e)
    | Except.ok out =>
      match out.Instances with
      | [] => ([call], GoResult.err (noMasterFoundError cl.Id))
      | inst :: _ => ([call], GoResult.ok inst.PrivateIpAddress)

/-- The per-group loop of `getMasterInstanceForNodeGroup`.  As in the source,
the items iterated are the `Instances` of the master-group `ListInstances`
reply, and each item's `Id` is passed as the `InstanceGroupId` of a further
`ListInstances` call; the first call with a non-empty reply supplies the
address. -/
def masterGroupLoop (api : EmrApi) (clusterId : String) :
    List Instance → List ApiCall × GoResult String
  | [] => ([], GoResult.err (noMasterFoundError clusterId))
  | group :: rest =>
    let input : ListInstancesInput :=
      { ClusterId := clusterId, InstanceGroupId := some group.Id }
    let call := ApiCall.listInstancesCall input
    match api.listInstances input with
    | Except.error e => ([call], GoResult.err e)
    | Except.ok out =>
      match out.Instances with
      | [] =>
        let tail := masterGroupLoop api clusterId rest
        (call :: tail.1, tail.2)
      | inst :: _ => ([call], GoResult.ok inst.PrivateIpAddress)

/-- `getMasterInstanceForNodeGroup`: list master instance groups, then walk
them in listing order with `masterGroupLoop`. -/
def getMasterInstanceForNodeGroup (api : EmrApi) (cluster : DescribeClusterOutput) :
    List ApiCall × GoResult String :=
  match cluster.Cluster with
  | none => ([], GoResult.panicked nilDeref)
  | some cl =>
    let input : ListInstancesInput :=
      { ClusterId := cl.Id, InstanceGroupTypes := [InstanceGroupTypeMaster] }
    let call := ApiCall.listInstancesCall input
    match api.listInstances input with
    | Except.error e => ([call], GoResult.err e)
    | Except.ok out =>
      let tail := masterGroupLoop api cl.Id out.Instances
      (call :: tail.1, tail.2)

/-- `getClusterMasterInstance`: branch on the instance-collection topology. -/
def getClusterMasterInstance (api : EmrApi) (cluster : DescribeClusterOutput) :
    List ApiCall × GoResult String :=
  match cluster.Cluster with
  | none => ([], GoResult.panicked nilDeref)
  | some cl =>
    if cl.InstanceCollectionType = InstanceCollectionTypeInstanceGroup then
      getMasterInstanceForNodeGroup api cluster
    else if cl.InstanceCollectionType = InstanceCollectionTypeInstanceFleet then
      getMasterInstanceForFleet api cluster
    else
      ([], GoResult.err ("unrecognized instance type " ++ cl.InstanceCollectionType))

/-- Modelled from the spec: the `trino.ClusterInfo` recorded for a discovered
cluster.  The source sets `Host` to `fmt.Sprintf("http://%s:8889", master)`;
the `trino` package defining the engine-API-variant field is not under
`src/`, and the spec states "this implementation always assumes the
`Authenticated`-style variant for discovered clusters", i.e. `DistSql`. -/
def discoveredClusterInfo (master : String) : presto.ClusterInfo :=
  { Host := "http://" ++ master ++ ":8889"
    Distribution := presto.Distribution.DistSql }

/-- A discovery snapshot: the `map[string]trino.ClusterInfo`, as entries. -/
abbrev Snapshot := List (String × presto.ClusterInfo)

/-- Go map assignment `m[k] = v`: replace the binding if the key is present,
append otherwise. -/
def mapInsert (m : Snapshot) (k : String) (v : presto.ClusterInfo) : Snapshot :=
  if m.any (fun p => p.1 == k) then
    m.map (fun p => if p.1 == k then (k, v) else p)
  else
    m ++ [(k, v)]

/-- The loop of `listTargetMasters` over the filtered descriptors: resolve
each master and record the endpoint under the cluster's name. -/
def resolveMasters (api : EmrApi) (acc : Snapshot) :
    List DescribeClusterOutput → List ApiCall × GoResult Snapshot
  | [] => ([], GoResult.ok acc)
  | d :: rest =>
    let resolved := getClusterMasterInstance api d
    match resolved.2 with
    | GoResult.err e => (resolved.1, GoResult.err e)
    | GoResult.panicked msg => (resolved.1, GoResult.panicked msg)
    | GoResult.ok master =>
      match d.Cluster with
      | none => (resolved.1, GoResult.panicked nilDeref)
      | some cl =>
        let tail :=
          resolveMasters api (mapInsert acc cl.Name (discoveredClusterInfo master)) rest
        (resolved.1 ++ tail.1, tail.2)

/-- `listTargetMasters`: list-and-filter, then resolve all masters. -/
def listTargetMasters (api : EmrApi) : List ApiCall × GoResult Snapshot :=
  let listed := listTargetClusters api
  match listed.2 with
  | GoResult.err e => (listed.1, GoResult.err e)
  | GoResult.panicked msg => (listed.1, GoResult.panicked msg)
  | GoResult.ok clusters =>
    let resolved := resolveMasters api [] clusters
    (listed.1 ++ resolved.1, resolved.2)

/-- The go-cache state for the single `"master"` key: the stored snapshot
and its expiration instant in nanoseconds. -/
structure CacheState where
  entry : Option (Snapshot × Nat)
deriving DecidableEq

/-- The provider plus a clock: the cache cell and the current time in
nanoseconds. -/
structure ProviderState where
  cache : CacheState
  now : Nat
deriving DecidableEq

/-- `30 * time.Minute`, in nanoseconds. -/
def thirtyMinutes : Nat := 30 * 60 * 1000000000

/-- `cache.Get`: hit iff the entry is present and not expired
(go-cache: expired iff `now > expiration`). -/
def cacheGet (s : ProviderState) : Option Snapshot :=
  match s.cache.entry with
  | some (v, expiration) => if s.now > expiration then none else some v
  | none => none

/-- `cache.Set` with an explicit TTL. -/
def cacheSet (s : ProviderState) (v : Snapshot) (ttl : Nat) : ProviderState :=
  { s with cache := { entry := some (v, s.now + ttl) } }

/-- `Provide`: return the cached snapshot when present, otherwise run
discovery, store the result with a 30-minute TTL and return it.  Result:
(EMR calls made, outcome, provider state after the call). -/
def Provide (api : EmrApi) (s : ProviderState) :
    List ApiCall × GoResult Snapshot × ProviderState :=
  match cacheGet s with
  | some cached => ([], GoResult.ok cached, s)
  | none =>
    let discovered := listTargetMasters api
    match discovered.2 with
    | GoResult.ok masters =>
      (discovered.1, GoResult.ok masters, cacheSet s masters thirtyMinutes)
    | GoResult.err e => (discovered.1, GoResult.err e, s)
    | GoResult.panicked msg => (discovered.1, GoResult.panicked msg, s)

end aws

/-! ## Concrete fixtures used by the evaluation theorems -/

/-- The literal statistics body from the spec's round-trip property. -/
def literalStatsBody : String :=
  "\x7b\"runningQueries\":3,\"blockedQueries\":0,\"queuedQueries\":1,\"activeWorkers\":5,\"runningDrivers\":2,\"reservedMemory\":1048576,\"totalInputRows\":1000,\"totalInputBytes\":500000,\"totalCpuTimeSecs\":12.5\x7d"

/-- A Direct-variant (PrestoDB) cluster endpoint. -/
def clusterA : presto.ClusterInfo :=
  { Host := "http://a.example:8080", Distribution := presto.Distribution.DistDb }

/-- An Authenticated-variant (PrestoSQL) cluster endpoint. -/
def clusterB : presto.ClusterInfo :=
  { Host := "http://b.example:8889", Distribution := presto.Distribution.DistSql }

/-- A client under which cluster A's coordinator answers 200 with the literal
statistics body. -/
def clientLiteral : presto.HttpClient :=
  { respond := fun req =>
      if req.url = "http://a.example:8080/v1/cluster" then
        Except.ok { statusCode := 200, headers := [], body := literalStatsBody }
      else
        Except.error "connection refused" }

/-- A client under which every request is answered 503 with a plain-text
body: the Direct scrape path sees a non-200 status. -/
def clientNon200 : presto.HttpClient :=
  { respond := fun _ =>
      Except.ok { statusCode := 503, headers := [], body := "Service Unavailable" } }

/-- The spec's two-cluster scenario client: A's coordinator is reachable and
returns the literal body with 200; B's login succeeds (a `Set-Cookie` header
is present), but B's stats GET returns 500 — with a syntactically valid JSON
body, as coordinators produce for errors. -/
def clientAB : presto.HttpClient :=
  { respond := fun req =>
      if req.url = "http://a.example:8080/v1/cluster" then
        Except.ok { statusCode := 200, headers := [], body := literalStatsBody }
      else if req.url = "http://b.example:8889/ui/login" then
        Except.ok
          { statusCode := 303
            headers := [("Set-Cookie", "Trino-UI-Token=abc")]
            body := "" }
      else if req.url = "http://b.example:8889/ui/api/stats" then
        Except.ok { statusCode := 500, headers := [], body := "\x7b\x7d" }
      else
        Except.error "connection refused" }

/-! ## Claim theorems -/

/-- C9: if the cluster provider's `Provide()` call fails, `Collect` aborts
the whole cycle — it issues no HTTP request, logs the cause, and emits no
observation (neither liveness nor numeric) for any cluster. -/
theorem collect_aborts_cycle_on_provider_failure
    (client : presto.HttpClient) (e : String) :
    presto.Collect client (Except.error e) = ([], [e], []) := rfl

set_option maxRecDepth 40000 in
/-- C10: decoding the spec's literal JSON statistics body and emitting it
yields nine numeric observations whose values equal the corresponding JSON
fields exactly (`mkRat 25 2` is the rational `12.5`), each labeled with the
originating cluster's name, plus the liveness gauge `up = 1`. -/
theorem collect_literal_body_roundtrip :
    presto.Collect clientLiteral (Except.ok [("cluster-a", clusterA)]) =
      ([presto.prestoDbRequest "http://a.example:8080"], [],
        [ { descName := "presto_cluster_running_queries", value := 3, labelValues := ["cluster-a"] }
        , { descName := "presto_cluster_blocked_queries", value := 0, labelValues := ["cluster-a"] }
        , { descName := "presto_cluster_queued_queries", value := 1, labelValues := ["cluster-a"] }
        , { descName := "presto_cluster_active_workers", value := 5, labelValues := ["cluster-a"] }
        , { descName := "presto_cluster_running_drivers", value := 2, labelValues := ["cluster-a"] }
        , { descName := "presto_cluster_reserved_memory", value := 1048576, labelValues := ["cluster-a"] }
        , { descName := "presto_cluster_total_input_rows", value := 1000, labelValues := ["cluster-a"] }
        , { descName := "presto_cluster_total_input_bytes", value := 500000, labelValues := ["cluster-a"] }
        , { descName := "presto_cluster_total_cpu_time_secs", value := mkRat 25 2, labelValues := ["cluster-a"] }
        , { descName := "presto_cluster_up", value := 1, labelValues := ["cluster-a"] } ])
    ∧ mkRat 25 2 = (12.5 : ℚ) := by
  constructor
  · decide
  · norm_num [Rat.mkRat_eq_div]

/-- C1 (divergence witness): under the Direct variant a non-200 status is
NOT a per-cluster failure in the code.  `statsFromPrestoDB`'s non-200 branch
is `return Response{}, err` with `err` provably nil there, so on a 503 the
collector emits the nine numeric gauges (all zero) and `up = 1` — not
`up = 0` with no gauges as the spec requires. -/
theorem collect_direct_non200_emits_up_one :
    presto.Collect clientNon200 (Except.ok [("cluster-a", clusterA)]) =
      ([presto.prestoDbRequest "http://a.example:8080"], [],
        [ { descName := "presto_cluster_running_queries", value := 0, labelValues := ["cluster-a"] }
        , { descName := "presto_cluster_blocked_queries", value := 0, labelValues := ["cluster-a"] }
        , { descName := "presto_cluster_queued_queries", value := 0, labelValues := ["cluster-a"] }
        , { descName := "presto_cluster_active_workers", value := 0, labelValues := ["cluster-a"] }
        , { descName := "presto_cluster_running_drivers", value := 0, labelValues := ["cluster-a"] }
        , { descName := "presto_cluster_reserved_memory", value := 0, labelValues := ["cluster-a"] }
        , { descName := "presto_cluster_total_input_rows", value := 0, labelValues := ["cluster-a"] }
        , { descName := "presto_cluster_total_input_bytes", value := 0, labelValues := ["cluster-a"] }
        , { descName := "presto_cluster_total_cpu_time_secs", value := 0, labelValues := ["cluster-a"] }
        , { descName := "presto_cluster_up", value := 1, labelValues := ["cluster-a"] } ]) := by
  decide

set_option maxRecDepth 40000 in
/-- C4 (divergence witness): in the spec's two-cluster scenario — A Direct
and reachable with valid JSON, B Authenticated with a successful login and a
stats GET answering 500 — the code emits A's nine gauges plus `up = 1` for A
as the claim says, but for B it emits nine zero gauges and `up = 1` rather
than only `up = 0`: `statsFromPrestoSQL` never checks the status code, and
the 500 response's JSON body decodes into a zero snapshot. -/
theorem collect_two_cluster_scenario :
    presto.Collect clientAB
        (Except.ok [("cluster-a", clusterA), ("cluster-b", clusterB)]) =
      ([ presto.prestoDbRequest "http://a.example:8080"
       , presto.loginRequest "http://b.example:8889"
       , presto.statsRequest "http://b.example:8889" "Trino-UI-Token=abc" ],
       [],
       [ { descName := "presto_cluster_running_queries", value := 3, labelValues := ["cluster-a"] }
       , { descName := "presto_cluster_blocked_queries", value := 0, labelValues := ["cluster-a"] }
       , { descName := "presto_cluster_queued_queries", value := 1, labelValues := ["cluster-a"] }
       , { descName := "presto_cluster_active_workers", value := 5, labelValues := ["cluster-a"] }
       , { descName := "presto_cluster_running_drivers", value := 2, labelValues := ["cluster-a"] }
       , { descName := "presto_cluster_reserved_memory", value := 1048576, labelValues := ["cluster-a"] }
       , { descName := "presto_cluster_total_input_rows", value := 1000, labelValues := ["cluster-a"] }
       , { descName := "presto_cluster_total_input_bytes", value := 500000, labelValues := ["cluster-a"] }
       , { descName := "presto_cluster_total_cpu_time_secs", value := mkRat 25 2, labelValues := ["cluster-a"] }
       , { descName := "presto_cluster_up", value := 1, labelValues := ["cluster-a"] }
       , { descName := "presto_cluster_running_queries", value := 0, labelValues := ["cluster-b"] }
       , { descName := "presto_cluster_blocked_queries", value := 0, labelValues := ["cluster-b"] }
       , { descName := "presto_cluster_queued_queries", value := 0, labelValues := ["cluster-b"] }
       , { descName := "presto_cluster_active_workers", value := 0, labelValues := ["cluster-b"] }
       , { descName := "presto_cluster_running_drivers", value := 0, labelValues := ["cluster-b"] }
       , { descName := "presto_cluster_reserved_memory", value := 0, labelValues := ["cluster-b"] }
       , { descName := "presto_cluster_total_input_rows", value := 0, labelValues := ["cluster-b"] }
       , { descName := "presto_cluster_total_input_bytes", value := 0, labelValues := ["cluster-b"] }
       , { descName := "presto_cluster_total_cpu_time_secs", value := 0, labelValues := ["cluster-b"] }
       , { descName := "presto_cluster_up", value := 1, labelValues := ["cluster-b"] } ]) := by
  decide

/-- C8: for the Authenticated variant, when the login response carries no
`Set-Cookie` header (`Header.Get` yields `""`), the scrape fails with the
missing-session-cookie error, the stats GET to `/ui/api/stats` is never
issued — the whole request trace is the single login POST — and the
collector surfaces it as a per-cluster failure: `up = 0` plus the logged
cause. -/
theorem sql_scrape_fails_without_session_cookie
    (client : presto.HttpClient) (cluster : presto.ClusterInfo)
    (resp : presto.HttpResponse)
    (hd : cluster.Distribution = presto.Distribution.DistSql)
    (hr : client.respond (presto.loginRequest cluster.Host) = Except.ok resp)
    (hc : presto.headerGet resp.headers "Set-Cookie" = "") :
    presto.statisticsFromCluster client cluster =
      ([presto.loginRequest cluster.Host],
        Except.error "no Set-Cookie header present in response")
    ∧ ∀ name, presto.collectClusters client [(name, cluster)] =
        ([presto.loginRequest cluster.Host],
          ["no Set-Cookie header present in response"],
          [presto.downMetric name]) := by
  have hlogin : presto.login client cluster =
      ([presto.loginRequest cluster.Host],
        Except.error "no Set-Cookie header present in response") := by
    simp only [presto.login, hr, hc, if_true, eq_self_iff_true]
  have hstats : presto.statisticsFromCluster client cluster =
      ([presto.loginRequest cluster.Host],
        Except.error "no Set-Cookie header present in response") := by
    simp only [presto.statisticsFromCluster, hd, presto.statsFromPrestoSQL, hlogin]
  refine ⟨hstats, fun name => ?_⟩
  simp only [presto.collectClusters, hstats, List.append_nil]

/-- A client whose login response carries no `Set-Cookie` header. -/
def clientNoCookie : presto.HttpClient :=
  { respond := fun req =>
      if req.url = "http://b.example:8889/ui/login" then
        Except.ok { statusCode := 200, headers := [], body := "" }
      else
        Except.error "connection refused" }

/-- Witness for C8 at a concrete client and cluster. -/
theorem sql_scrape_fails_without_session_cookie_witness :
    presto.statisticsFromCluster clientNoCookie clusterB =
      ([presto.loginRequest "http://b.example:8889"],
        Except.error "no Set-Cookie header present in response")
    ∧ ∀ name, presto.collectClusters clientNoCookie [(name, clusterB)] =
        ([presto.loginRequest "http://b.example:8889"],
          ["no Set-Cookie header present in response"],
          [presto.downMetric name]) :=
  sql_scrape_fails_without_session_cookie clientNoCookie clusterB
    { statusCode := 200, headers := [], body := "" } rfl (by decide) rfl

/-- C5: when the cached snapshot is younger than its freshness window,
`Provide` makes zero cloud-API calls and returns exactly the cached mapping
with the state untouched; on a cache miss, a successful discovery result is
stored with a 30-minute TTL (expiration `now + thirtyMinutes`) before being
returned. -/
theorem provide_cache_semantics (api : aws.EmrApi) (s : aws.ProviderState)
    (v : aws.Snapshot) (expiration : Nat) :
    (s.cache.entry = some (v, expiration) → s.now < expiration →
      aws.Provide api s = ([], GoResult.ok v, s))
    ∧ (aws.cacheGet s = none →
        ∀ tr m, aws.listTargetMasters api = (tr, GoResult.ok m) →
          aws.Provide api s =
            (tr, GoResult.ok m,
              { cache := { entry := some (m, s.now + aws.thirtyMinutes) }
                now := s.now })) := by
  constructor
  · intro he hn
    have hget : aws.cacheGet s = some v := by
      simp [aws.cacheGet, he, Nat.not_lt.mpr (Nat.le_of_lt hn)]
    simp [aws.Provide, hget]
  · intro hget tr m hl
    simp [aws.Provide, hget, hl, aws.cacheSet]

/-- A state holding a fresh cached snapshot at time 50, expiring at 100. -/
def stateHit : aws.ProviderState :=
  { cache := { entry := some ([("cached", clusterB)], 100) }, now := 50 }

/-- A state with an empty cache. -/
def stateMiss : aws.ProviderState :=
  { cache := { entry := none }, now := 7 }

/-- An EMR API with no waiting clusters: discovery succeeds and is empty. -/
def apiEmpty : aws.EmrApi :=
  { listClusters := Except.ok []
    describeCluster := fun _ => Except.error "unused"
    listInstances := fun _ => Except.error "unused" }

/-- Witness for C5: a cache hit returns the cached mapping with no calls; a
miss stores the discovered snapshot with the 30-minute TTL. -/
theorem provide_cache_semantics_witness :
    aws.Provide apiEmpty stateHit =
      ([], GoResult.ok [("cached", clusterB)], stateHit)
    ∧ aws.Provide apiEmpty stateMiss =
      ([aws.ApiCall.listClustersCall], GoResult.ok [],
        { cache := { entry := some ([], 7 + aws.thirtyMinutes) }, now := 7 }) :=
  ⟨(provide_cache_semantics apiEmpty stateHit [("cached", clusterB)] 100).1
      rfl (by decide),
    (provide_cache_semantics apiEmpty stateMiss [] 0).2
      rfl [aws.ApiCall.listClustersCall] [] (by decide)⟩

/-- An EMR API where one waiting cluster is listed but describing it fails. -/
def apiDescribeFails : aws.EmrApi :=
  { listClusters := Except.ok [{ Id := "j-1" }]
    describeCluster := fun _ => Except.error "AccessDeniedException"
    listInstances := fun _ => Except.error "unused" }

/-- C2 (divergence witness): a `DescribeCluster` error does not abort the
discovery pass with an error.  The source discards it (`descr, _ :=`) and
then reads `descr.Cluster.Applications` through the nil `Cluster` pointer of
the SDK's empty output — a runtime panic, modelled as `GoResult.panicked` —
so `Provide` never returns the cloud-API error.  (Errors of the list-clusters
and instance-enumeration calls do abort the pass; the cache is indeed left
unchanged in every case.) -/
theorem provide_describe_error_panics :
    aws.Provide apiDescribeFails stateMiss =
      ([aws.ApiCall.listClustersCall, aws.ApiCall.describeClusterCall "j-1"],
        GoResult.panicked nilDeref, stateMiss) := by
  decide

/-- Reference definition following the spec's words for instance-group
master resolution (used to state the refinement in C7): walk the master
groups in listing order; the first group whose instance query is non-empty
supplies its first instance's address; `none` when every group is empty. -/
def specFirstNonEmptyMasterGroup (fetch : String → List aws.Instance) :
    List aws.Instance → Option String
  | [] => none
  | g :: gs =>
    match fetch g.Id with
    | [] => specFirstNonEmptyMasterGroup fetch gs
    | inst :: _ => some inst.PrivateIpAddress

/-- The group loop agrees with the spec's first-non-empty-group description
when every per-group instance query succeeds. -/
theorem masterGroupLoop_spec (api : aws.EmrApi) (clusterId : String)
    (fetch : String → List aws.Instance) :
    ∀ groups : List aws.Instance,
      (∀ g ∈ groups,
        api.listInstances { ClusterId := clusterId, InstanceGroupId := some g.Id } =
          Except.ok { Instances := fetch g.Id }) →
      (aws.masterGroupLoop api clusterId groups).2 =
        match specFirstNonEmptyMasterGroup fetch groups with
        | some addr => GoResult.ok addr
        | none => GoResult.err (aws.noMasterFoundError clusterId)
  | [], _ => rfl
  | g :: gs, h => by
    have hg := h g (List.mem_cons_self g gs)
    have ih :=
      masterGroupLoop_spec api clusterId fetch gs
        (fun x hx => h x (List.mem_cons_of_mem g hx))
    cases hfe : fetch g.Id with
    | nil =>
      simp only [aws.masterGroupLoop, hg, hfe, specFirstNonEmptyMasterGroup] at ih ⊢
      exact ih
    | cons inst is =>
      simp only [aws.masterGroupLoop, hg, hfe, specFirstNonEmptyMasterGroup]

/-- `specFirstNonEmptyMasterGroup` yields `none` precisely when every master
group's instance query is empty. -/
theorem specFirstNonEmptyMasterGroup_eq_none (fetch : String → List aws.Instance) :
    ∀ groups : List aws.Instance,
      specFirstNonEmptyMasterGroup fetch groups = none ↔ ∀ g ∈ groups, fetch g.Id = []
  | [] => by simp [specFirstNonEmptyMasterGroup]
  | g :: gs => by
    cases hfe : fetch g.Id with
    | nil =>
      simp only [specFirstNonEmptyMasterGroup, hfe]
      rw [specFirstNonEmptyMasterGroup_eq_none fetch gs]
      constructor
      · intro hall x hx
        rcases List.mem_cons.mp hx with h | h
        · rw [h]; exact hfe
        · exact hall x h
      · intro hall x hx
        exact hall x (List.mem_cons_of_mem g hx)
    | cons inst is =>
      simp only [specFirstNonEmptyMasterGroup, hfe]
      constructor
      · intro h; cases h
      · intro hall
        have := hall g (List.mem_cons_self g gs)
        rw [hfe] at this
        cases this

/-- C7: master resolution branches on topology with the claimed
postconditions.  Fleet topology: given a successful master-fleet instance
query, the result is the first returned instance's private address, and it
is the `NoMasterFoundError` exactly when the fleet has zero instances.
Instance-group topology: given successful queries, the result is the first
instance address of the first non-empty master group in listing order, and
it is the `NoMasterFoundError` exactly when every master group yields zero
instances (the last conjunct). -/
theorem master_resolution_postconditions (api : aws.EmrApi) (cl : aws.EmrCluster)
    (fleetOut : aws.ListInstancesOutput) (groups : List aws.Instance)
    (fetch : String → List aws.Instance) :
    (api.listInstances
        { ClusterId := cl.Id, InstanceFleetType := some aws.InstanceFleetTypeMaster } =
          Except.ok fleetOut →
      (aws.getMasterInstanceForFleet api { Cluster := some cl }).2 =
        match fleetOut.Instances with
        | [] => GoResult.err (aws.noMasterFoundError cl.Id)
        | inst :: _ => GoResult.ok inst.PrivateIpAddress)
    ∧ (api.listInstances
          { ClusterId := cl.Id, InstanceGroupTypes := [aws.InstanceGroupTypeMaster] } =
            Except.ok { Instances := groups } →
        (∀ g ∈ groups,
          api.listInstances { ClusterId := cl.Id, InstanceGroupId := some g.Id } =
            Except.ok { Instances := fetch g.Id }) →
        (aws.getMasterInstanceForNodeGroup api { Cluster := some cl }).2 =
          match specFirstNonEmptyMasterGroup fetch groups with
          | some addr => GoResult.ok addr
          | none => GoResult.err (aws.noMasterFoundError cl.Id))
    ∧ (specFirstNonEmptyMasterGroup fetch groups = none ↔
        ∀ g ∈ groups, fetch g.Id = []) := by
  refine ⟨?_, ?_, specFirstNonEmptyMasterGroup_eq_none fetch groups⟩
  · intro h
    simp only [aws.getMasterInstanceForFleet, h]
    cases fleetOut.Instances <;> rfl
  · intro h1 h2
    simp only [aws.getMasterInstanceForNodeGroup, h1]
    exact masterGroupLoop_spec api cl.Id fetch groups h2

/-- An instance-group-topology cluster descriptor. -/
def clGroups : aws.EmrCluster :=
  { Id := "j-7", Name := "emr-seven"
    InstanceCollectionType := "INSTANCE_GROUP"
    Applications := [{ Name := "Trino" }] }

/-- Per-group instance listings: the first master group is empty, the
second holds one instance. -/
def fetchW (groupId : String) : List aws.Instance :=
  if groupId = "ig-2" then [{ Id := "i-9", PrivateIpAddress := "10.0.0.9" }] else []

/-- An EMR API with one master fleet instance and two master groups, of
which only the second is non-empty. -/
def apiMasters : aws.EmrApi :=
  { listClusters := Except.ok []
    describeCluster := fun _ => Except.error "unused"
    listInstances := fun input =>
      if input.InstanceFleetType = some "MASTER" then
        Except.ok { Instances := [{ Id := "i-1", PrivateIpAddress := "10.0.0.1" }] }
      else if input.InstanceGroupTypes = ["MASTER"] then
        Except.ok { Instances :=
          [ { Id := "ig-1", PrivateIpAddress := "x" }
          , { Id := "ig-2", PrivateIpAddress := "y" } ] }
      else
        match input.InstanceGroupId with
        | some gid => Except.ok { Instances := fetchW gid }
        | none => Except.error "unused" }

/-- Witness for C7: fleet resolution picks the first fleet instance;
group resolution skips the empty first group and picks the second group's
first instance address. -/
theorem master_resolution_postconditions_witness :
    (aws.getMasterInstanceForFleet apiMasters { Cluster := some clGroups }).2 =
      GoResult.ok "10.0.0.1"
    ∧ (aws.getMasterInstanceForNodeGroup apiMasters { Cluster := some clGroups }).2 =
      GoResult.ok "10.0.0.9" := by
  have h :=
    master_resolution_postconditions apiMasters clGroups
      { Instances := [{ Id := "i-1", PrivateIpAddress := "10.0.0.1" }] }
      [ { Id := "ig-1", PrivateIpAddress := "x" }
      , { Id := "ig-2", PrivateIpAddress := "y" } ]
      fetchW
  refine ⟨?_, ?_⟩
  · have := h.1 (by decide)
    rw [this]
  · have := h.2.1 (by decide) (by decide)
    rw [this]
    decide

/-- Membership after a Go map assignment: an entry of `mapInsert m k v` is
either an old binding of `m` or the new binding `(k, v)`. -/
theorem mem_mapInsert {m : aws.Snapshot} {k : String} {v : presto.ClusterInfo}
    {p : String × presto.ClusterInfo} (hp : p ∈ aws.mapInsert m k v) :
    p ∈ m ∨ p = (k, v) := by
  unfold aws.mapInsert at hp
  by_cases hk : m.any (fun q => q.1 == k)
  · rw [if_pos hk] at hp
    rcases List.mem_map.mp hp with ⟨q, hq, hquv⟩
    by_cases h : (q.1 == k) = true
    · right
      rw [if_pos h] at hquv
      exact hquv.symm
    · left
      rw [if_neg h] at hquv
      rw [← hquv]
      exact hq
  · rw [if_neg hk] at hp
    rcases List.mem_append.mp hp with h | h
    · exact Or.inl h
    · right
      simpa using h

/-- Provenance of entries built by `resolveMasters`: each one is an
accumulator entry or records a resolved master of one of the descriptors. -/
theorem resolveMasters_entries (api : aws.EmrApi) :
    ∀ (ds : List aws.DescribeClusterOutput) (acc m : aws.Snapshot),
      (aws.resolveMasters api acc ds).2 = GoResult.ok m →
      ∀ p ∈ m, p ∈ acc ∨ ∃ d ∈ ds, ∃ cl master,
        d.Cluster = some cl ∧
        (aws.getClusterMasterInstance api d).2 = GoResult.ok master ∧
        p = (cl.Name, aws.discoveredClusterInfo master)
  | [], acc, m, h, p, hp => by
    simp only [aws.resolveMasters] at h
    cases h
    exact Or.inl hp
  | d :: rest, acc, m, h, p, hp => by
    simp only [aws.resolveMasters] at h
    cases hres : (aws.getClusterMasterInstance api d).2 with
    | err e => rw [hres] at h; cases h
    | panicked msg => rw [hres] at h; cases h
    | ok master =>
      rw [hres] at h
      cases hdc : d.Cluster with
      | none => rw [hdc] at h; cases h
      | some cl =>
        rw [hdc] at h
        have htail :
            (aws.resolveMasters api
              (aws.mapInsert acc cl.Name (aws.discoveredClusterInfo master)) rest).2 =
              GoResult.ok m := h
        have ih := resolveMasters_entries api rest
          (aws.mapInsert acc cl.Name (aws.discoveredClusterInfo master)) m htail p hp
        rcases ih with hin | ⟨d', hd', cl', master', h₁, h₂, h₃⟩
        · rcases mem_mapInsert hin with hold | hnew
          · exact Or.inl hold
          · exact Or.inr ⟨d, List.mem_cons_self d rest, cl, master, hdc, hres, hnew⟩
        · exact Or.inr ⟨d', List.mem_cons_of_mem d hd', cl', master', h₁, h₂, h₃⟩

/-- Provenance of descriptors kept by the filter loop: each kept descriptor
came from a successful `DescribeCluster` call for a listed summary and has
the target engine installed. -/
theorem filterTargetClusters_entries (api : aws.EmrApi) :
    ∀ (ss : List aws.ClusterSummary) (ds : List aws.DescribeClusterOutput),
      (aws.filterTargetClusters api ss).2 = GoResult.ok ds →
      ∀ d ∈ ds, aws.isTrinoInstalled d = GoResult.ok true ∧
        ∃ s ∈ ss, api.describeCluster s.Id = Except.ok d
  | [], ds, h, d, hd => by
    simp only [aws.filterTargetClusters] at h
    cases h
    cases hd
  | summary :: rest, ds, h, d, hd => by
    simp only [aws.filterTargetClusters] at h
    cases hdesc : api.describeCluster summary.Id with
    | error e =>
      rw [hdesc] at h
      simp only [aws.isTrinoInstalled] at h
      cases h
    | ok d0 =>
      rw [hdesc] at h
      cases hti : aws.isTrinoInstalled d0 with
      | panicked msg => rw [hti] at h; cases h
      | err e => rw [hti] at h; cases h
      | ok installed =>
        rw [hti] at h
        cases htail : (aws.filterTargetClusters api rest).2 with
        | err e => rw [htail] at h; cases h
        | panicked msg => rw [htail] at h; cases h
        | ok ds' =>
          rw [htail] at h
          have ih := filterTargetClusters_entries api rest ds' htail
          cases h
          by_cases hins : installed = true
          · rw [hins] at hd
            simp only [if_pos rfl] at hd
            rcases List.mem_cons.mp hd with hdd | hdd
            · subst hdd
              rw [hins] at hti
              exact ⟨hti, summary, List.mem_cons_self summary rest, hdesc⟩
            · rcases ih d hdd with ⟨h₁, s, hs, h₂⟩
              exact ⟨h₁, s, List.mem_cons_of_mem summary hs, h₂⟩
          · rw [Bool.eq_false_iff.mpr hins] at hd
            simp only [if_neg (Bool.false_ne_true)] at hd
            rcases ih d hd with ⟨h₁, s, hs, h₂⟩
            exact ⟨h₁, s, List.mem_cons_of_mem summary hs, h₂⟩

/-- Provenance of snapshot entries of a successful discovery pass: each
entry names a described, engine-confirmed cluster whose master was resolved,
and records `discoveredClusterInfo` of that master address. -/
theorem listTargetMasters_entries (api : aws.EmrApi) (m : aws.Snapshot)
    (h : (aws.listTargetMasters api).2 = GoResult.ok m) :
    ∀ p ∈ m, ∃ d,
      (∃ summaries, api.listClusters = Except.ok summaries ∧
        ∃ s ∈ summaries, api.describeCluster s.Id = Except.ok d) ∧
      aws.isTrinoInstalled d = GoResult.ok true ∧
      ∃ cl master, d.Cluster = some cl ∧
        (aws.getClusterMasterInstance api d).2 = GoResult.ok master ∧
        p = (cl.Name, aws.discoveredClusterInfo master) := by
  intro p hp
  simp only [aws.listTargetMasters, aws.listTargetClusters] at h
  cases hlc : api.listClusters with
  | error e => rw [hlc] at h; cases h
  | ok summaries =>
    rw [hlc] at h
    cases hfil : (aws.filterTargetClusters api summaries).2 with
    | err e => rw [hfil] at h; cases h
    | panicked msg => rw [hfil] at h; cases h
    | ok clusters =>
      rw [hfil] at h
      have hres : (aws.resolveMasters api [] clusters).2 = GoResult.ok m := h
      rcases resolveMasters_entries api clusters [] m hres p hp with hin | hprov
      · cases hin
      · rcases hprov with ⟨d, hd, cl, master, h₁, h₂, h₃⟩
        rcases filterTargetClusters_entries api summaries clusters hfil d hd with
          ⟨hti, s, hs, hdesc⟩
        exact ⟨d, ⟨summaries, rfl, s, hs, hdesc⟩, hti,
          cl, master, h₁, h₂, h₃⟩

/-- C6: every cluster placed in a discovery snapshot was confirmed to run
the target engine.  Each entry of a successful pass originates from a
described descriptor whose application list names `trino` or `trinodb`
case-insensitively (`isTrinoInstalled`); a cluster whose descriptor lacks
such a name is never included. -/
theorem snapshot_clusters_run_target_engine (api : aws.EmrApi) (m : aws.Snapshot)
    (h : (aws.listTargetMasters api).2 = GoResult.ok m) :
    ∀ p ∈ m, ∃ d cl,
      (∃ summaries, api.listClusters = Except.ok summaries ∧
        ∃ s ∈ summaries, api.describeCluster s.Id = Except.ok d) ∧
      d.Cluster = some cl ∧ p.1 = cl.Name ∧
      (cl.Applications.any fun application =>
        strToLower application.Name == "trino" ||
        strToLower application.Name == "trinodb") = true := by
  intro p hp
  rcases listTargetMasters_entries api m h p hp with
    ⟨d, hsrc, hti, cl, master, hdc, _, hpe⟩
  refine ⟨d, cl, hsrc, hdc, ?_, ?_⟩
  · rw [hpe]
  · simp only [aws.isTrinoInstalled, hdc] at hti
    exact (GoResult.ok.injEq _ _).mp hti

/-- C3: every entry of a discovery snapshot records coordinator URL
`http://<address>:8889`, where `<address>` is the master address resolved
for its descriptor, together with the Authenticated (`DistSql`) engine-API
variant, and the collector's dispatch therefore routes it to the
Authenticated scrape path `statsFromPrestoSQL`. -/
theorem discovered_endpoints_use_authenticated_variant (api : aws.EmrApi)
    (m : aws.Snapshot) (h : (aws.listTargetMasters api).2 = GoResult.ok m) :
    ∀ p ∈ m, ∃ d master,
      (aws.getClusterMasterInstance api d).2 = GoResult.ok master ∧
      p.2.Host = "http://" ++ master ++ ":8889" ∧
      p.2.Distribution = presto.Distribution.DistSql ∧
      ∀ client, presto.statisticsFromCluster client p.2 =
        presto.statsFromPrestoSQL client p.2 := by
  intro p hp
  rcases listTargetMasters_entries api m h p hp with
    ⟨d, _, _, cl, master, _, hmaster, hpe⟩
  refine ⟨d, master, hmaster, ?_, ?_, ?_⟩ <;>
    rw [hpe] <;>
    simp [presto.statisticsFromCluster, aws.discoveredClusterInfo]

/-- A fleet-topology EMR cluster descriptor running Trino. -/
def clusterTrino : aws.EmrCluster :=
  { Id := "j-1", Name := "trino-prod"
    InstanceCollectionType := "INSTANCE_FLEET"
    Applications := [{ Name := "Trino" }] }

/-- An EMR API with one waiting Trino cluster whose master fleet holds one
instance at 10.1.2.3. -/
def apiFull : aws.EmrApi :=
  { listClusters := Except.ok [{ Id := "j-1" }]
    describeCluster := fun cid =>
      if cid = "j-1" then Except.ok { Cluster := some clusterTrino }
      else Except.error "no such cluster"
    listInstances := fun input =>
      if input.InstanceFleetType = some "MASTER" then
        Except.ok { Instances := [{ Id := "i-1", PrivateIpAddress := "10.1.2.3" }] }
      else
        Except.error "unused" }

/-- Witness for C6: in the snapshot discovered from `apiFull`, the single
entry's cluster has a descriptor whose applications name the target engine. -/
theorem snapshot_clusters_run_target_engine_witness :
    ∃ d cl,
      (∃ summaries, apiFull.listClusters = Except.ok summaries ∧
        ∃ s ∈ summaries, apiFull.describeCluster s.Id = Except.ok d) ∧
      d.Cluster = some cl ∧
      ("trino-prod", aws.discoveredClusterInfo "10.1.2.3").1 = cl.Name ∧
      (cl.Applications.any fun application =>
        strToLower application.Name == "trino" ||
        strToLower application.Name == "trinodb") = true :=
  snapshot_clusters_run_target_engine apiFull
    [("trino-prod", aws.discoveredClusterInfo "10.1.2.3")] (by decide)
    ("trino-prod", aws.discoveredClusterInfo "10.1.2.3") (by decide)

/-- Witness for C3: the single discovered entry of `apiFull` records
`http://10.1.2.3:8889` with the Authenticated variant and dispatches to the
Authenticated scrape path. -/
theorem discovered_endpoints_use_authenticated_variant_witness :
    ∃ d master,
      (aws.getClusterMasterInstance apiFull d).2 = GoResult.ok master ∧
      ("trino-prod", aws.discoveredClusterInfo "10.1.2.3").2.Host =
        "http://" ++ master ++ ":8889" ∧
      ("trino-prod", aws.discoveredClusterInfo "10.1.2.3").2.Distribution =
        presto.Distribution.DistSql ∧
      ∀ client,
        presto.statisticsFromCluster client
            ("trino-prod", aws.discoveredClusterInfo "10.1.2.3").2 =
          presto.statsFromPrestoSQL client
            ("trino-prod", aws.discoveredClusterInfo "10.1.2.3").2 :=
  discovered_endpoints_use_authenticated_variant apiFull
    [("trino-prod", aws.discoveredClusterInfo "10.1.2.3")] (by decide)
    ("trino-prod", aws.discoveredClusterInfo "10.1.2.3") (by decide)

end PrestoExporter
